import Mathlib

/-!
Verification of the `atomicwrites` library (file `atomicwrites/__init__.py`):
the POSIX commit protocol (`AtomicWriter._open`, `_move_atomic`,
`_replace_atomic`, `_sync_directory`), the platform selection of the
durability fsync (`_proper_fsync`), mode validation in
`AtomicWriter.__init__`, and the Windows `_replace_atomic` retry/fallback
structure.

The filesystem is shallowly embedded as an association list from path
strings to file contents, together with a trace of the filesystem events
the code issues (link, unlink, rename, directory sync, file fsync).
External OS calls that can fail at runtime (temp-file creation, fsync,
directory sync, unlink) take an explicit fault-injection flag; the caller
supplied write logic is modelled as an `Option` of the bytes it writes
(`none` meaning it raises).
-/

/-- File contents: a list of bytes. -/
abbrev FileContent := List Nat

/-- Filesystem events issued by the POSIX branch of the code, in order. -/
inductive FsEvent where
  | link (src dst : String)
  | unlink (p : String)
  | rename (src dst : String)
  | syncDir (d : String)
  | fsyncFile (p : String)
  deriving DecidableEq

/-- Errors raised by the embedded code. `eexist`/`enoent` are the OS errno
classes; `valueError` is Python's ValueError with its message;
`openFailure`, `callerError`, `syncFailure`, `dirSyncFailure`,
`unlinkFailure` are the injected runtime failures of the corresponding
external calls; `attrError` is the AttributeError from `None.name`;
`winError` is the WinError raised by `_handle_errors`. -/
inductive Err where
  | eexist (p : String)
  | enoent (p : String)
  | valueError (msg : String)
  | openFailure
  | callerError
  | syncFailure
  | dirSyncFailure
  | unlinkFailure
  | attrError
  | winError
  deriving DecidableEq

/-- Filesystem state: the files (path to content) plus the event trace. -/
structure St where
  files : List (String × FileContent)
  trace : List FsEvent
  deriving DecidableEq

/-- Look a path up in the files association list. -/
def lookupFile : List (String × FileContent) → String → Option FileContent
  | [], _ => none
  | (q, c) :: rest, p => if q = p then some c else lookupFile rest p

/-- Remove every entry for a path from the files association list. -/
def removeFile : List (String × FileContent) → String → List (String × FileContent)
  | [], _ => []
  | (q, c) :: rest, p =>
      if q = p then removeFile rest p else (q, c) :: removeFile rest p

/-- Set the content stored at a path. -/
def setFile (fs : List (String × FileContent)) (p : String) (c : FileContent) :
    List (String × FileContent) :=
  (p, c) :: removeFile fs p

/-- Models `os.path.dirname` for slash-separated paths: everything up to the
last slash, with trailing slashes stripped from the head unless the head is
all slashes (mirroring posixpath.dirname). -/
def dirname (p : String) : String :=
  let headRev := (p.toList.reverse).dropWhile (fun c => c ≠ '/')
  if headRev.all (fun c => c = '/') then String.mk headRev.reverse
  else String.mk ((headRev.dropWhile (fun c => c = '/')).reverse)

/-- Models `os.path.normpath` restricted to inputs that are already in
normal form apart from emptiness: the empty path normalizes to `.` and any
other already-normal path is returned unchanged. The claims only apply it
to outputs of `dirname` on normal paths. -/
def normpath (p : String) : String :=
  if p = "" then "." else p

/-- The composite `os.path.normpath(os.path.dirname(p))` used throughout the
source. -/
def normDir (p : String) : String := normpath (dirname p)

/-- Models `os.link src dst`: fails with ENOENT when `src` is absent, with
EEXIST when `dst` is already present (the error precedence when both hold is
a convention of the model; the claims only use it with `src` present),
otherwise makes `dst` a second name for the content of `src`. -/
def os_link (src dst : String) (s : St) : Except Err Unit × St :=
  match lookupFile s.files src with
  | none => (.error (.enoent src), s)
  | some c =>
      match lookupFile s.files dst with
      | some _ => (.error (.eexist dst), s)
      | none =>
          (.ok (), { files := setFile s.files dst c,
                     trace := s.trace ++ [.link src dst] })

/-- Models `os.unlink p`: fails with ENOENT when absent, otherwise removes
the entry. -/
def os_unlink (p : String) (s : St) : Except Err Unit × St :=
  match lookupFile s.files p with
  | none => (.error (.enoent p), s)
  | some _ =>
      (.ok (), { files := removeFile s.files p, trace := s.trace ++ [.unlink p] })

/-- Models POSIX `os.rename src dst`: fails with ENOENT when `src` is
absent, otherwise moves the content of `src` to `dst`, silently replacing
any file at `dst`. -/
def os_rename (src dst : String) (s : St) : Except Err Unit × St :=
  match lookupFile s.files src with
  | none => (.error (.enoent src), s)
  | some c =>
      (.ok (), { files := setFile (removeFile s.files src) dst c,
                 trace := s.trace ++ [.rename src dst] })

/-- Models `_sync_directory(directory)` (os.open of the directory,
`_proper_fsync` on the descriptor, close). The `fail` flag injects a
runtime failure of those OS calls; on success a `syncDir` event is
recorded. -/
def _sync_directory (fail : Bool) (d : String) (s : St) : Except Err Unit × St :=
  if fail then (.error .dirSyncFailure, s)
  else (.ok (), { s with trace := s.trace ++ [.syncDir d] })

/-- POSIX `_replace_atomic(src, dst)`: `os.rename(src, dst)` then
`_sync_directory(os.path.normpath(os.path.dirname(dst)))`. -/
def _replace_atomic (dirFail : Bool) (src dst : String) (s : St) : Except Err Unit × St :=
  match os_rename src dst s with
  | (.error e, s1) => (.error e, s1)
  | (.ok _, s1) => _sync_directory dirFail (normDir dst) s1

/-- POSIX `_move_atomic(src, dst)`: `os.link(src, dst)`, `os.unlink(src)`,
sync the destination's parent directory, and sync the source's parent
directory when it differs. -/
def _move_atomic (dirFail : Bool) (src dst : String) (s : St) : Except Err Unit × St :=
  match os_link src dst s with
  | (.error e, s1) => (.error e, s1)
  | (.ok _, s1) =>
      match os_unlink src s1 with
      | (.error e, s2) => (.error e, s2)
      | (.ok _, s2) =>
          let src_dir := normDir src
          let dst_dir := normDir dst
          match _sync_directory dirFail dst_dir s2 with
          | (.error e, s3) => (.error e, s3)
          | (.ok _, s3) =>
              if src_dir ≠ dst_dir then _sync_directory dirFail src_dir s3
              else (.ok (), s3)

/-- Public `replace_atomic`: delegates to the platform `_replace_atomic`
(here the POSIX branch). -/
def replace_atomic (dirFail : Bool) (src dst : String) (s : St) : Except Err Unit × St :=
  _replace_atomic dirFail src dst s

/-- Public `move_atomic`: delegates to the platform `_move_atomic` (here the
POSIX branch). -/
def move_atomic (dirFail : Bool) (src dst : String) (s : St) : Except Err Unit × St :=
  _move_atomic dirFail src dst s

/-- The fsync implementation chosen by `sync`. -/
inductive FsyncImpl where
  | fsync
  | fullfsync
  deriving DecidableEq

/-- Models the module-level selection of `_proper_fsync`: it is `os.fsync`
by default; on non-win32 platforms whose `fcntl` module has `F_FULLFSYNC`
(the Apple kernel), it is redefined to issue `fcntl.fcntl(fd,
fcntl.F_FULLFSYNC)`. -/
def _proper_fsync_impl (isWin32 : Bool) (fcntlHasFullFsync : Bool) : FsyncImpl :=
  if isWin32 then .fsync
  else if fcntlHasFullFsync then .fullfsync
  else .fsync

/-- Python's default open mode for the writer (`"w"` on Python 3). -/
def DEFAULT_MODE : String := "w"

/-- The writer object once constructed: destination path, mode, overwrite
flag. -/
structure AtomicWriter where
  path : String
  mode : String
  overwrite : Bool
  deriving DecidableEq

/-- Models `AtomicWriter.__init__`: rejects modes containing `a` then modes
containing `x` then modes not containing `w` (Python's `in` on the mode
string, embedded as membership in its character list), each with
ValueError, before storing the fields. No filesystem state is involved. -/
def AtomicWriter.init (path mode : String) (overwrite : Bool) :
    Except Err AtomicWriter :=
  if mode.toList.contains 'a' then
    .error (.valueError "Appending to an existing file is not supported")
  else if mode.toList.contains 'x' then
    .error (.valueError "Use the overwrite-parameter instead.")
  else if ¬ mode.toList.contains 'w' then
    .error (.valueError "AtomicWriters can only be written to.")
  else .ok { path := path, mode := mode, overwrite := overwrite }

/-- Models `atomic_write(path, **cls_kwargs)` constructing the writer: a
kwarg left out (`none`) takes the `__init__` default (`DEFAULT_MODE` for
mode, `False` for overwrite). -/
def atomic_write (path : String) (mode : Option String) (overwrite : Option Bool) :
    Except Err AtomicWriter :=
  AtomicWriter.init path (mode.getD DEFAULT_MODE) (overwrite.getD false)

/-- Fault injection for one run of the scoped write. `openFail`: temp-file
creation (`tempfile.mkstemp`) raises. `body`: the caller supplied write
logic; `none` means it raises, `some bytes` means it writes `bytes` and
returns. `fileSyncFail`: `sync` (flush + `_proper_fsync`) raises.
`dirSyncFail`: every `_sync_directory` call raises. `unlinkFail`: the
`os.unlink` in `rollback` raises. -/
structure Faults where
  openFail : Bool
  body : Option FileContent
  fileSyncFail : Bool
  dirSyncFail : Bool
  unlinkFail : Bool

/-- Models `get_fileobject` with the default `dir` (the destination's
parent): `tempfile.mkstemp` creates a fresh empty file at `tmpName` which
is then reopened in the writer's mode. On injected failure nothing is
created. -/
def AtomicWriter.get_fileobject (tmpName : String) (openFail : Bool) (s : St) :
    Except Err Unit × St :=
  if openFail then (.error .openFailure, s)
  else (.ok (), { files := setFile s.files tmpName [], trace := s.trace })

/-- Models `AtomicWriter.sync(f)`: `f.flush()` then
`_proper_fsync(f.fileno())` on the temp file, recorded as an `fsyncFile`
event; the flag injects a runtime failure. -/
def AtomicWriter.sync (fail : Bool) (tmpName : String) (s : St) : Except Err Unit × St :=
  if fail then (.error .syncFailure, s)
  else (.ok (), { s with trace := s.trace ++ [.fsyncFile tmpName] })

/-- Models `AtomicWriter.commit(f)`: `replace_atomic(f.name, self._path)`
when overwriting, else `move_atomic(f.name, self._path)`. -/
def AtomicWriter.commit (w : AtomicWriter) (dirFail : Bool) (tmpName : String) (s : St) :
    Except Err Unit × St :=
  if w.overwrite then replace_atomic dirFail tmpName w.path s
  else move_atomic dirFail tmpName w.path s

/-- Models `AtomicWriter.rollback(f)`, i.e. `os.unlink(f.name)`. When `f`
is `None` (open never produced a file object) the attribute access raises;
otherwise the unlink may fail via injection or with ENOENT. -/
def AtomicWriter.rollback (f : Option String) (unlinkFail : Bool) (s : St) :
    Except Err Unit × St :=
  match f with
  | none => (.error .attrError, s)
  | some name => if unlinkFail then (.error .unlinkFailure, s) else os_unlink name s

/-- The `finally` clause of `_open`: `rollback` is attempted and any
exception it raises is suppressed (`except Exception: pass`), so only its
state effect remains. -/
def rollbackSuppressed (f : Option String) (unlinkFail : Bool) (s : St) : St :=
  (AtomicWriter.rollback f unlinkFail s).2

/-- Models `AtomicWriter._open(get_fileobject)` driving one scoped write:
create the temp file, run the caller body, sync, close, commit; on any
failure run the suppressed rollback (with `f = None` when the open itself
failed) and re-raise the original error. -/
def AtomicWriter.runOpen (w : AtomicWriter) (tmpName : String) (fl : Faults) (s : St) :
    Except Err Unit × St :=
  match AtomicWriter.get_fileobject tmpName fl.openFail s with
  | (.error e, s1) => (.error e, rollbackSuppressed none fl.unlinkFail s1)
  | (.ok _, s1) =>
      match fl.body with
      | none => (.error .callerError, rollbackSuppressed (some tmpName) fl.unlinkFail s1)
      | some bytes =>
          let s2 : St := { files := setFile s1.files tmpName bytes, trace := s1.trace }
          match AtomicWriter.sync fl.fileSyncFail tmpName s2 with
          | (.error e, s3) => (.error e, rollbackSuppressed (some tmpName) fl.unlinkFail s3)
          | (.ok _, s3) =>
              match AtomicWriter.commit w fl.dirSyncFail tmpName s3 with
              | (.error e, s4) => (.error e, rollbackSuppressed (some tmpName) fl.unlinkFail s4)
              | (.ok _, s4) => (.ok (), s4)

/-- Models `atomic_write(path, **cls_kwargs)` run to completion: construct
the writer (ValueError propagates before any filesystem activity) and run
its scoped write. -/
def atomic_write_run (path : String) (mode : Option String) (overwrite : Option Bool)
    (tmpName : String) (fl : Faults) (s : St) : Except Err Unit × St :=
  match atomic_write path mode overwrite with
  | .error e => (.error e, s)
  | .ok w => AtomicWriter.runOpen w tmpName fl s

/-- Events issued by the Windows branch of the code, in order. -/
inductive WinEvent where
  | moveTransactedCall (src dst : String) (n : Nat)
  | commitTxCall
  | sleep
  | moveFileExCall (src dst : String) (n : Nat)
  | renameCall (src dst : String)
  | unlinkCall (p : String)
  deriving DecidableEq

/-- Oracle for the Windows API calls: `txSupported` is the module flag
`transactional_ntfs_supported`; `createTxOk` is whether `CreateTransaction`
returns a handle other than -1; `moveTransacted n` / `moveFileEx n` are the
results of the n-th `MoveFileTransactedW` / `MoveFileExW` attempt;
`commitTx` is the `CommitTransaction` result; `renameResult` is what the
fallback `os.rename(src, dst)` would raise (`none` for success); and
`randomHex` is the random suffix the fallback would append to the
destination name. -/
structure WinEnv where
  txSupported : Bool
  createTxOk : Bool
  moveTransacted : Nat → Bool
  commitTx : Bool
  moveFileEx : Nat → Bool
  renameResult : Option Err
  randomHex : String

/-- The retry loop of `_rename_atomic`: up to `fuel` tries starting at
attempt number `retry`; a successful transacted move is followed by
`CommitTransaction` whose result is returned, a failed one by a 1 ms sleep
and another attempt. -/
def renameAtomicLoop (env : WinEnv) (src dst : String) : Nat → Nat → Bool × List WinEvent
  | _, 0 => (false, [])
  | retry, fuel + 1 =>
      if env.moveTransacted retry then
        (env.commitTx, [.moveTransactedCall src dst retry, .commitTxCall])
      else
        let (rv, evs) := renameAtomicLoop env src dst (retry + 1) fuel
        (rv, .moveTransactedCall src dst retry :: .sleep :: evs)

/-- Models `_rename_atomic(src, dst)`: `False` when transactional NTFS is
unavailable or the transaction cannot be created, otherwise the transacted
retry loop with a ceiling of 100 attempts. -/
def _rename_atomic (env : WinEnv) (src dst : String) : Bool × List WinEvent :=
  if ¬ env.txSupported then (false, [])
  else if ¬ env.createTxOk then (false, [])
  else renameAtomicLoop env src dst 0 100

/-- The fallback retry loop of `_rename`: up to `fuel` tries of
`MoveFileExW` with the replace flag, sleeping 1 ms after each failed
attempt. -/
def renameExLoop (env : WinEnv) (src dst : String) : Nat → Nat → Bool × List WinEvent
  | _, 0 => (false, [])
  | retry, fuel + 1 =>
      if env.moveFileEx retry then (true, [.moveFileExCall src dst retry])
      else
        let (rv, evs) := renameExLoop env src dst (retry + 1) fuel
        (rv, .moveFileExCall src dst retry :: .sleep :: evs)

/-- Models `_rename(src, dst)`: try `_rename_atomic`, and if it reports
failure fall back to the bounded `MoveFileExW` retry loop (ceiling 100). -/
def _rename (env : WinEnv) (src dst : String) : Bool × List WinEvent :=
  let (rv, evs) := _rename_atomic env src dst
  if rv then (true, evs)
  else
    let (rv2, evs2) := renameExLoop env src dst 0 100
    (rv2, evs ++ evs2)

/-- Models `_handle_errors(rv)`: raise `WinError()` when `rv` is falsy,
otherwise return `True`. -/
def _handle_errors (rv : Bool) : Except Err Bool :=
  if rv then .ok true else .error .winError

/-- Models the `except OSError` block of the Windows `_replace_atomic`
(lines 140-151): try `os.rename(src, dst)`; re-raise a non-EEXIST error;
on EEXIST rename the destination to a randomized sibling, rename the
source into the destination, and best-effort unlink the sibling with any
error swallowed. -/
def moveAwayAndReplace (env : WinEnv) (src dst : String) : Except Err Unit × List WinEvent :=
  match env.renameResult with
  | none => (.ok (), [.renameCall src dst])
  | some e =>
      if e ≠ Err.eexist dst then (.error e, [.renameCall src dst])
      else
        let old := dst ++ "-" ++ env.randomHex
        (.ok (), [.renameCall src dst, .renameCall dst old, .renameCall src dst,
                  .unlinkCall old])

/-- Models the Windows `_replace_atomic(src, dst)`: run
`_handle_errors(_rename(src, dst))` and return if it yields a truthy value;
only a falsy return (which `_handle_errors` can never produce — it raises
instead) would reach the move-away-and-replace fallback. -/
def _replace_atomic_win (env : WinEnv) (src dst : String) : Except Err Unit × List WinEvent :=
  let (rv, evs) := _rename env src dst
  match _handle_errors rv with
  | .error e => (.error e, evs)
  | .ok true => (.ok (), evs)
  | .ok false =>
      let (r2, evs2) := moveAwayAndReplace env src dst
      (r2, evs ++ evs2)

/-- An event belonging to the three-step move-away-and-replace dance (an
`os.rename` or `os.unlink` call) rather than to the retried move APIs. -/
def WinEvent.isDance : WinEvent → Bool
  | .renameCall _ _ => true
  | .unlinkCall _ => true
  | _ => false

/-- Whether any dance event occurs in a Windows trace. -/
def hasDanceEvent (evs : List WinEvent) : Bool :=
  evs.any WinEvent.isDance

/-! Helper lemmas about the filesystem association list. -/

@[simp] theorem lookupFile_nil (p : String) : lookupFile [] p = none := rfl

@[simp] theorem lookupFile_cons (q : String) (c : FileContent)
    (rest : List (String × FileContent)) (p : String) :
    lookupFile ((q, c) :: rest) p = if q = p then some c else lookupFile rest p := rfl

@[simp] theorem lookupFile_removeFile_self (fs : List (String × FileContent)) (p : String) :
    lookupFile (removeFile fs p) p = none := by
  induction fs with
  | nil => rfl
  | cons qc rest ih =>
      obtain ⟨q, c⟩ := qc
      by_cases h : q = p <;> simp [removeFile, h, ih]

theorem lookupFile_removeFile_ne (fs : List (String × FileContent)) (p q : String)
    (h : q ≠ p) : lookupFile (removeFile fs p) q = lookupFile fs q := by
  induction fs with
  | nil => rfl
  | cons rc rest ih =>
      obtain ⟨r, c⟩ := rc
      by_cases hr : r = p
      · subst hr
        simp [removeFile, lookupFile, Ne.symm h, ih]
      · simp [removeFile, lookupFile, hr, ih]

@[simp] theorem lookupFile_setFile_self (fs : List (String × FileContent))
    (p : String) (c : FileContent) : lookupFile (setFile fs p c) p = some c := by
  simp [setFile]

theorem lookupFile_setFile_ne (fs : List (String × FileContent)) (p q : String)
    (c : FileContent) (h : q ≠ p) :
    lookupFile (setFile fs p c) q = lookupFile fs q := by
  simp [setFile, Ne.symm h, lookupFile_removeFile_ne fs p q h]

/-! General characterizations of the POSIX move/replace primitives. -/

theorem move_atomic_run_spec (src dst : String) (s : St) (r : Except Err Unit) (s' : St)
    (hrun : _move_atomic false src dst s = (r, s')) :
    (r = .ok () →
      s'.trace = s.trace ++ [.link src dst, .unlink src, .syncDir (normDir dst)] ++
        (if normDir src ≠ normDir dst then [.syncDir (normDir src)] else []))
    ∧ (∀ csrc c, lookupFile s.files src = some csrc → lookupFile s.files dst = some c →
        r = .error (.eexist dst) ∧ s' = s) := by
  unfold _move_atomic os_link at hrun
  cases h1 : lookupFile s.files src with
  | none =>
      rw [h1] at hrun
      simp only [Prod.mk.injEq] at hrun
      obtain ⟨hr, hs⟩ := hrun
      subst hr; subst hs
      constructor
      · intro hok; cases hok
      · intro csrc c hc _; cases hc
  | some csrc0 =>
      rw [h1] at hrun
      cases h2 : lookupFile s.files dst with
      | some c0 =>
          rw [h2] at hrun
          simp only [Prod.mk.injEq] at hrun
          obtain ⟨hr, hs⟩ := hrun
          subst hr; subst hs
          constructor
          · intro hok; cases hok
          · intro csrc c _ _; exact ⟨rfl, rfl⟩
      | none =>
          rw [h2] at hrun
          have hsd : src ≠ dst := by
            intro he; rw [he, h2] at h1; cases h1
          simp only [os_unlink] at hrun
          rw [lookupFile_setFile_ne s.files dst src csrc0 hsd, h1] at hrun
          simp only [_sync_directory, Bool.false_eq_true, if_false] at hrun
          by_cases hnd : normDir src ≠ normDir dst
          · rw [if_pos hnd] at hrun
            simp only [Bool.false_eq_true, if_false, Prod.mk.injEq] at hrun
            obtain ⟨hr, hs⟩ := hrun
            subst hr; subst hs
            constructor
            · intro _
              simp [if_pos hnd, List.append_assoc]
            · intro csrc c _ hc; cases hc
          · rw [if_neg hnd] at hrun
            simp only [Prod.mk.injEq] at hrun
            obtain ⟨hr, hs⟩ := hrun
            subst hr; subst hs
            constructor
            · intro _
              simp [if_neg hnd, List.append_assoc]
            · intro csrc c _ hc; cases hc

theorem replace_atomic_success_trace (src dst : String) (s : St) (r : Except Err Unit)
    (s' : St) (hrun : _replace_atomic false src dst s = (r, s')) (hok : r = .ok ()) :
    s'.trace = s.trace ++ [.rename src dst, .syncDir (normDir dst)] := by
  subst hok
  unfold _replace_atomic os_rename at hrun
  cases h1 : lookupFile s.files src with
  | none =>
      rw [h1] at hrun
      simp only [Prod.mk.injEq] at hrun
      exact absurd hrun.1 (by simp)
  | some c =>
      rw [h1] at hrun
      simp only [_sync_directory, Bool.false_eq_true, if_false, Prod.mk.injEq] at hrun
      obtain ⟨_, hs⟩ := hrun
      subst hs
      simp [List.append_assoc]

/-- C2: on POSIX, `move_atomic`/`_move_atomic` performs, in order: a hard
link of the source onto the destination (which fails immediately with
EEXIST, leaving the state untouched, when the destination already exists),
the unlink of the source, a sync of the destination's parent directory,
and a sync of the source's parent directory when the two parents differ. -/
theorem c2_move_atomic_steps (src dst : String) (s : St) (r : Except Err Unit) (s' : St)
    (hrun : move_atomic false src dst s = (r, s')) :
    (r = .ok () →
      s'.trace = s.trace ++ [.link src dst, .unlink src, .syncDir (normDir dst)] ++
        (if normDir src ≠ normDir dst then [.syncDir (normDir src)] else []))
    ∧ (∀ csrc c, lookupFile s.files src = some csrc → lookupFile s.files dst = some c →
        r = .error (.eexist dst) ∧ s' = s) :=
  move_atomic_run_spec src dst s r s' hrun

/-- Witness for C2 at a concrete run across two directories, and at a
concrete run against an existing destination. -/
theorem c2_move_atomic_steps_witness :
    (move_atomic false "a/t" "b/f" { files := [("a/t", [7])], trace := [] }).2.trace =
      [FsEvent.link "a/t" "b/f", FsEvent.unlink "a/t", FsEvent.syncDir "b",
       FsEvent.syncDir "a"] ∧
    move_atomic false "a/t" "a/f" { files := [("a/t", [7]), ("a/f", [9])], trace := [] } =
      (.error (.eexist "a/f"), { files := [("a/t", [7]), ("a/f", [9])], trace := [] }) := by
  constructor
  · have h := (c2_move_atomic_steps "a/t" "b/f" { files := [("a/t", [7])], trace := [] }
        (move_atomic false "a/t" "b/f" { files := [("a/t", [7])], trace := [] }).1
        (move_atomic false "a/t" "b/f" { files := [("a/t", [7])], trace := [] }).2
        rfl).1 rfl
    rw [h]; decide
  · have h := (c2_move_atomic_steps "a/t" "a/f"
        { files := [("a/t", [7]), ("a/f", [9])], trace := [] }
        (move_atomic false "a/t" "a/f" { files := [("a/t", [7]), ("a/f", [9])], trace := [] }).1
        (move_atomic false "a/t" "a/f" { files := [("a/t", [7]), ("a/f", [9])], trace := [] }).2
        rfl).2 [7] [9] rfl rfl
    rw [Prod.ext_iff]
    exact ⟨h.1, h.2⟩

/-- C3 counterexample: a successful POSIX `_replace_atomic` whose source
and destination lie in different directories syncs only the destination's
parent — no sync of the source's parent ever appears in the trace, so the
claim that both primitives sync both directories is false. -/
theorem c3_replace_src_dir_not_synced :
    (_replace_atomic false "a/s" "b/d" { files := [("a/s", [7])], trace := [] }).1 =
      .ok () ∧
    normDir "a/s" ≠ normDir "b/d" ∧
    FsEvent.syncDir (normDir "a/s") ∉
      (_replace_atomic false "a/s" "b/d" { files := [("a/s", [7])], trace := [] }).2.trace :=
  ⟨rfl, by decide, by decide⟩

/-- C3 (amended): after the rename/link step, `_move_atomic` syncs the
destination's parent directory and also the source's parent when the two
differ; `_replace_atomic`, however, syncs only the destination's parent —
its successful trace is exactly the rename followed by that single
directory sync. -/
theorem c3_both_dirs_synced :
    (∀ src dst s r s', _move_atomic false src dst s = (r, s') → r = .ok () →
       FsEvent.syncDir (normDir dst) ∈ s'.trace ∧
       (normDir src ≠ normDir dst → FsEvent.syncDir (normDir src) ∈ s'.trace)) ∧
    (∀ src dst s r s', _replace_atomic false src dst s = (r, s') → r = .ok () →
       s'.trace = s.trace ++ [.rename src dst, .syncDir (normDir dst)]) := by
  constructor
  · intro src dst s r s' hrun hok
    have h := (move_atomic_run_spec src dst s r s' hrun).1 hok
    constructor
    · rw [h]; simp
    · intro hnd; rw [h]; simp [hnd]
  · intro src dst s r s' hrun hok
    exact replace_atomic_success_trace src dst s r s' hrun hok

/-- Witness for C3 (amended) at concrete cross-directory runs of both
primitives. -/
theorem c3_both_dirs_synced_witness :
    (FsEvent.syncDir "b" ∈
        (_move_atomic false "a/t" "b/f" { files := [("a/t", [7])], trace := [] }).2.trace ∧
      FsEvent.syncDir "a" ∈
        (_move_atomic false "a/t" "b/f" { files := [("a/t", [7])], trace := [] }).2.trace) ∧
    (_replace_atomic false "a/t" "b/f" { files := [("a/t", [7])], trace := [] }).2.trace =
      [FsEvent.rename "a/t" "b/f", FsEvent.syncDir "b"] := by
  constructor
  · have h := c3_both_dirs_synced.1 "a/t" "b/f" { files := [("a/t", [7])], trace := [] }
      (_move_atomic false "a/t" "b/f" { files := [("a/t", [7])], trace := [] }).1
      (_move_atomic false "a/t" "b/f" { files := [("a/t", [7])], trace := [] }).2
      rfl rfl
    have hb : normDir "b/f" = "b" := by decide
    have ha : normDir "a/t" = "a" := by decide
    rw [hb] at h
    exact ⟨h.1, by rw [← ha]; exact h.2 (by decide)⟩
  · have h := c3_both_dirs_synced.2 "a/t" "b/f" { files := [("a/t", [7])], trace := [] }
      (_replace_atomic false "a/t" "b/f" { files := [("a/t", [7])], trace := [] }).1
      (_replace_atomic false "a/t" "b/f" { files := [("a/t", [7])], trace := [] }).2
      rfl rfl
    rw [h]; decide

/-- C1 counterexample: a scoped write (overwrite=false, destination
initially absent) in which commit's directory sync fails after the
link/unlink already succeeded: the operation reports failure, yet the
destination now exists with the caller's bytes, contradicting the claim
that any failure leaves the destination unchanged. -/
theorem c1_scoped_write_counterexample :
    (AtomicWriter.runOpen { path := "d/f", mode := "w", overwrite := false } "d/tmp"
        { openFail := false, body := some [1], fileSyncFail := false,
          dirSyncFail := true, unlinkFail := false }
        { files := [], trace := [] }).1 = .error .dirSyncFailure ∧
    lookupFile (St.files { files := [], trace := [] }) "d/f" = none ∧
    lookupFile (AtomicWriter.runOpen { path := "d/f", mode := "w", overwrite := false }
        "d/tmp"
        { openFail := false, body := some [1], fileSyncFail := false,
          dirSyncFail := true, unlinkFail := false }
        { files := [], trace := [] }).2.files "d/f" = some [1] :=
  ⟨rfl, rfl, rfl⟩

/-- C1 (amended): for every scoped write whose temp name is fresh and
distinct from the destination: on success the destination holds exactly
the bytes the caller wrote and the temp file is gone; on a failure at
open, in the caller's write logic, at the file sync, or at the rename/link
step of commit (that is, whenever no directory-sync fault fires), the
destination is unchanged and the temp file has been deleted unless the
deletion itself failed (which is suppressed). A directory-sync failure
inside commit, after the rename/link succeeded, is exempt: there the
failed operation leaves the new content at the destination. -/
theorem c1_scoped_write_outcome (w : AtomicWriter) (tmpName : String) (fl : Faults)
    (s : St) (r : Except Err Unit) (s' : St)
    (htmp : lookupFile s.files tmpName = none)
    (hne : tmpName ≠ w.path)
    (hrun : AtomicWriter.runOpen w tmpName fl s = (r, s')) :
    (r = .ok () →
       lookupFile s'.files w.path = fl.body ∧ lookupFile s'.files tmpName = none) ∧
    (r ≠ .ok () → fl.dirSyncFail = false →
       lookupFile s'.files w.path = lookupFile s.files w.path ∧
       (fl.unlinkFail = true ∨ lookupFile s'.files tmpName = none)) := by
  obtain ⟨path, mode, ow⟩ := w
  obtain ⟨op, body, fsf, dsf, ulf⟩ := fl
  simp only at hne ⊢
  have hne' : path ≠ tmpName := Ne.symm hne
  cases hdst : lookupFile s.files path with
  | none =>
      cases op <;> cases body <;> cases fsf <;> cases ow <;> cases dsf <;> cases ulf <;>
        by_cases hnd : normDir tmpName ≠ normDir path <;>
        simp [AtomicWriter.runOpen, AtomicWriter.get_fileobject, AtomicWriter.sync,
          AtomicWriter.commit, move_atomic, _move_atomic, replace_atomic, _replace_atomic,
          os_link, os_unlink, os_rename, _sync_directory, rollbackSuppressed,
          AtomicWriter.rollback, lookupFile_setFile_self, lookupFile_setFile_ne,
          lookupFile_removeFile_self, lookupFile_removeFile_ne, hne, hne', hdst, hnd] at hrun <;>
        obtain ⟨hr, hs⟩ := hrun <;> subst hr <;> (try subst hs) <;>
        constructor <;>
        simp +contextual [lookupFile_setFile_self, lookupFile_setFile_ne,
          lookupFile_removeFile_self, lookupFile_removeFile_ne, hne, hne', hdst, htmp]
  | some c =>
      cases op <;> cases body <;> cases fsf <;> cases ow <;> cases dsf <;> cases ulf <;>
        by_cases hnd : normDir tmpName ≠ normDir path <;>
        simp [AtomicWriter.runOpen, AtomicWriter.get_fileobject, AtomicWriter.sync,
          AtomicWriter.commit, move_atomic, _move_atomic, replace_atomic, _replace_atomic,
          os_link, os_unlink, os_rename, _sync_directory, rollbackSuppressed,
          AtomicWriter.rollback, lookupFile_setFile_self, lookupFile_setFile_ne,
          lookupFile_removeFile_self, lookupFile_removeFile_ne, hne, hne', hdst, hnd] at hrun <;>
        obtain ⟨hr, hs⟩ := hrun <;> subst hr <;> (try subst hs) <;>
        constructor <;>
        simp +contextual [lookupFile_setFile_self, lookupFile_setFile_ne,
          lookupFile_removeFile_self, lookupFile_removeFile_ne, hne, hne', hdst, htmp]

/-- Witness for C1 (amended): a concrete fault-free run writes the
destination and removes the temp file, and a concrete run whose caller
logic raises leaves the absent destination absent. -/
theorem c1_scoped_write_outcome_witness :
    (lookupFile (AtomicWriter.runOpen { path := "d/f", mode := "w", overwrite := false }
        "d/tmp"
        { openFail := false, body := some [1], fileSyncFail := false,
          dirSyncFail := false, unlinkFail := false }
        { files := [], trace := [] }).2.files "d/f" = some [1] ∧
      lookupFile (AtomicWriter.runOpen { path := "d/f", mode := "w", overwrite := false }
        "d/tmp"
        { openFail := false, body := some [1], fileSyncFail := false,
          dirSyncFail := false, unlinkFail := false }
        { files := [], trace := [] }).2.files "d/tmp" = none) ∧
    (lookupFile (AtomicWriter.runOpen { path := "d/f", mode := "w", overwrite := false }
        "d/tmp"
        { openFail := false, body := none, fileSyncFail := false,
          dirSyncFail := false, unlinkFail := false }
        { files := [], trace := [] }).2.files "d/f" = none ∧
      lookupFile (AtomicWriter.runOpen { path := "d/f", mode := "w", overwrite := false }
        "d/tmp"
        { openFail := false, body := none, fileSyncFail := false,
          dirSyncFail := false, unlinkFail := false }
        { files := [], trace := [] }).2.files "d/tmp" = none) := by
  constructor
  · exact (c1_scoped_write_outcome
      { path := "d/f", mode := "w", overwrite := false } "d/tmp"
      { openFail := false, body := some [1], fileSyncFail := false,
        dirSyncFail := false, unlinkFail := false }
      { files := [], trace := [] } _ _ rfl (by decide) rfl).1 rfl
  · have h := (c1_scoped_write_outcome
      { path := "d/f", mode := "w", overwrite := false } "d/tmp"
      { openFail := false, body := none, fileSyncFail := false,
        dirSyncFail := false, unlinkFail := false }
      { files := [], trace := [] } _ _ rfl (by decide) rfl).2 (by simp) rfl
    exact ⟨h.1, h.2.resolve_left (by simp)⟩

theorem runOpen_noOverwrite_existing (path mode tmpName : String) (bytes c : FileContent)
    (s : St) (r : Except Err Unit) (s' : St)
    (hdst : lookupFile s.files path = some c)
    (hne : tmpName ≠ path)
    (hrun : AtomicWriter.runOpen { path := path, mode := mode, overwrite := false } tmpName
      { openFail := false, body := some bytes, fileSyncFail := false,
        dirSyncFail := false, unlinkFail := false } s = (r, s')) :
    r = .error (.eexist path) ∧ lookupFile s'.files path = some c ∧
      lookupFile s'.files tmpName = none := by
  have hne' : path ≠ tmpName := Ne.symm hne
  simp [AtomicWriter.runOpen, AtomicWriter.get_fileobject, AtomicWriter.sync,
    AtomicWriter.commit, move_atomic, _move_atomic, os_link, os_unlink,
    _sync_directory, rollbackSuppressed, AtomicWriter.rollback,
    lookupFile_setFile_self, lookupFile_setFile_ne, lookupFile_removeFile_self,
    lookupFile_removeFile_ne, hne, hne', hdst] at hrun
  obtain ⟨hr, hs⟩ := hrun
  subst hr; subst hs
  refine ⟨rfl, ?_, ?_⟩
  · rw [lookupFile_removeFile_ne _ _ _ hne', lookupFile_setFile_ne _ _ _ _ hne',
      lookupFile_setFile_ne _ _ _ _ hne']
    exact hdst
  · exact lookupFile_removeFile_self _ _

/-- C5: a scoped write with overwrite=false against an existing
destination fails with the distinct EEXIST error kind, leaves the existing
destination's content completely unmodified, and removes its temp file. -/
theorem c5_no_overwrite_eexist (path mode tmpName : String) (bytes c : FileContent)
    (s : St) (r : Except Err Unit) (s' : St)
    (hdst : lookupFile s.files path = some c)
    (hne : tmpName ≠ path)
    (hrun : AtomicWriter.runOpen { path := path, mode := mode, overwrite := false } tmpName
      { openFail := false, body := some bytes, fileSyncFail := false,
        dirSyncFail := false, unlinkFail := false } s = (r, s')) :
    r = .error (.eexist path) ∧ lookupFile s'.files path = some c ∧
      lookupFile s'.files tmpName = none :=
  runOpen_noOverwrite_existing path mode tmpName bytes c s r s' hdst hne hrun

/-- Witness for C5 at a concrete run against an existing destination. -/
theorem c5_no_overwrite_eexist_witness :
    (AtomicWriter.runOpen { path := "d/f", mode := "w", overwrite := false } "d/tmp"
        { openFail := false, body := some [1], fileSyncFail := false,
          dirSyncFail := false, unlinkFail := false }
        { files := [("d/f", [9])], trace := [] }).1 = .error (.eexist "d/f") ∧
    lookupFile (AtomicWriter.runOpen { path := "d/f", mode := "w", overwrite := false }
        "d/tmp"
        { openFail := false, body := some [1], fileSyncFail := false,
          dirSyncFail := false, unlinkFail := false }
        { files := [("d/f", [9])], trace := [] }).2.files "d/f" = some [9] ∧
    lookupFile (AtomicWriter.runOpen { path := "d/f", mode := "w", overwrite := false }
        "d/tmp"
        { openFail := false, body := some [1], fileSyncFail := false,
          dirSyncFail := false, unlinkFail := false }
        { files := [("d/f", [9])], trace := [] }).2.files "d/tmp" = none :=
  c5_no_overwrite_eexist "d/f" "w" "d/tmp" [1] [9]
    { files := [("d/f", [9])], trace := [] } _ _ rfl (by decide) rfl

/-- C6: constructing an AtomicWriter (including through `atomic_write`)
with a mode containing `a` or `x` raises ValueError during construction
itself; the filesystem state is returned untouched — no temp file is
created and no filesystem operation is performed. -/
theorem c6_mode_append_exclusive_valueerror (path mode : String) (ov : Option Bool)
    (tmpName : String) (fl : Faults) (s : St)
    (h : mode.toList.contains 'a' = true ∨ mode.toList.contains 'x' = true) :
    ∃ msg, AtomicWriter.init path mode (ov.getD false) = .error (.valueError msg) ∧
      atomic_write_run path (some mode) ov tmpName fl s =
        (.error (.valueError msg), s) := by
  rcases h with h | h
  · have hm : 'a' ∈ mode.data := by simpa using h
    refine ⟨"Appending to an existing file is not supported", ?_, ?_⟩ <;>
      simp [atomic_write_run, atomic_write, AtomicWriter.init, hm]
  · by_cases ha : 'a' ∈ mode.data
    · refine ⟨"Appending to an existing file is not supported", ?_, ?_⟩ <;>
        simp [atomic_write_run, atomic_write, AtomicWriter.init, ha]
    · have hm : 'x' ∈ mode.data := by simpa using h
      refine ⟨"Use the overwrite-parameter instead.", ?_, ?_⟩ <;>
        simp [atomic_write_run, atomic_write, AtomicWriter.init, ha, hm]

/-- Witness for C6 with the append mode `a` on an empty filesystem. -/
theorem c6_mode_append_exclusive_valueerror_witness :
    ("a".toList.contains 'a' = true ∨ "a".toList.contains 'x' = true) ∧
    (∃ msg, AtomicWriter.init "p" "a" ((none : Option Bool).getD false) =
        .error (.valueError msg) ∧
      atomic_write_run "p" (some "a") none "t"
        { openFail := false, body := some [1], fileSyncFail := false,
          dirSyncFail := false, unlinkFail := false }
        { files := [], trace := [] } =
        (.error (.valueError msg), { files := [], trace := [] })) :=
  ⟨Or.inl (by decide),
   c6_mode_append_exclusive_valueerror "p" "a" none "t"
     { openFail := false, body := some [1], fileSyncFail := false,
       dirSyncFail := false, unlinkFail := false }
     { files := [], trace := [] } (Or.inl (by decide))⟩

/-- C7: the module-level `_proper_fsync` is the F_FULLFSYNC fcntl variant
exactly on non-win32 platforms whose fcntl module exposes F_FULLFSYNC (the
Apple kernel); when F_FULLFSYNC is unsupported it falls back to the
standard `os.fsync`, which is also what every other platform uses. -/
theorem c7_proper_fsync_selection :
    _proper_fsync_impl false true = .fullfsync ∧
    _proper_fsync_impl false false = .fsync ∧
    _proper_fsync_impl true true = .fsync ∧
    _proper_fsync_impl true false = .fsync :=
  ⟨rfl, rfl, rfl, rfl⟩

/-- C8: any mode not containing `w` is rejected with ValueError at
construction (the `a` and `x` checks fire first for modes containing
those; everything else hits the only-writable check). -/
theorem c8_non_writable_mode_valueerror (path mode : String) (ov : Bool)
    (h : mode.toList.contains 'w' = false) :
    ∃ msg, AtomicWriter.init path mode ov = .error (.valueError msg) := by
  have hw : 'w' ∉ mode.data := by simpa using h
  by_cases ha : 'a' ∈ mode.data
  · exact ⟨"Appending to an existing file is not supported",
      by simp [AtomicWriter.init, ha]⟩
  · by_cases hx : 'x' ∈ mode.data
    · exact ⟨"Use the overwrite-parameter instead.",
        by simp [AtomicWriter.init, ha, hx]⟩
    · exact ⟨"AtomicWriters can only be written to.",
        by simp [AtomicWriter.init, ha, hx, hw]⟩

/-- Witness for C8 with the read mode `rb`. -/
theorem c8_non_writable_mode_valueerror_witness :
    "rb".toList.contains 'w' = false ∧
    (∃ msg, AtomicWriter.init "p" "rb" false = .error (.valueError msg)) :=
  ⟨by decide, c8_non_writable_mode_valueerror "p" "rb" false (by decide)⟩

/-- C9: when temp-file creation itself fails, the open failure propagates
to the caller unchanged with the filesystem untouched (no temp file to
delete, no unlink performed), while `rollback` is still attempted with the
`None` handle — it raises the attribute error, which `_open` suppresses. -/
theorem c9_open_failure_propagates (w : AtomicWriter) (tmpName : String) (fl : Faults)
    (s : St) (hop : fl.openFail = true) :
    AtomicWriter.runOpen w tmpName fl s = (.error .openFailure, s) ∧
    AtomicWriter.rollback none fl.unlinkFail s = (.error .attrError, s) := by
  constructor
  · unfold AtomicWriter.runOpen AtomicWriter.get_fileobject
    simp [hop, rollbackSuppressed, AtomicWriter.rollback]
  · rfl

/-- Witness for C9 at a concrete failing open. -/
theorem c9_open_failure_propagates_witness :
    AtomicWriter.runOpen { path := "d/f", mode := "w", overwrite := false } "d/tmp"
      { openFail := true, body := some [1], fileSyncFail := false,
        dirSyncFail := false, unlinkFail := false }
      { files := [("d/f", [9])], trace := [] } =
      (.error .openFailure, { files := [("d/f", [9])], trace := [] }) :=
  (c9_open_failure_propagates { path := "d/f", mode := "w", overwrite := false } "d/tmp"
    { openFail := true, body := some [1], fileSyncFail := false,
      dirSyncFail := false, unlinkFail := false }
    { files := [("d/f", [9])], trace := [] } rfl).1

/-- C10: the overwrite flag defaults to False, both in `AtomicWriter` and
through `atomic_write`, so a default-configured write against an existing
destination fails with the EEXIST error kind instead of replacing it. -/
theorem c10_overwrite_default_false :
    (∀ path, atomic_write path none none =
        .ok { path := path, mode := DEFAULT_MODE, overwrite := false }) ∧
    (∀ path tmpName bytes c s r s',
       lookupFile s.files path = some c →
       tmpName ≠ path →
       AtomicWriter.runOpen { path := path, mode := DEFAULT_MODE, overwrite := false }
         tmpName
         { openFail := false, body := some bytes, fileSyncFail := false,
           dirSyncFail := false, unlinkFail := false } s = (r, s') →
       r = .error (.eexist path)) := by
  constructor
  · intro path; rfl
  · intro path tmpName bytes c s r s' hdst hne hrun
    exact (runOpen_noOverwrite_existing path DEFAULT_MODE tmpName bytes c s r s'
      hdst hne hrun).1

/-- Witness for C10: the default-constructed writer run against an
existing destination fails with EEXIST. -/
theorem c10_overwrite_default_false_witness :
    atomic_write "d/f" none none =
      .ok { path := "d/f", mode := DEFAULT_MODE, overwrite := false } ∧
    (AtomicWriter.runOpen { path := "d/f", mode := DEFAULT_MODE, overwrite := false }
        "d/tmp"
        { openFail := false, body := some [1], fileSyncFail := false,
          dirSyncFail := false, unlinkFail := false }
        { files := [("d/f", [9])], trace := [] }).1 = .error (.eexist "d/f") :=
  ⟨c10_overwrite_default_false.1 "d/f",
   c10_overwrite_default_false.2 "d/f" "d/tmp" [1] [9]
     { files := [("d/f", [9])], trace := [] } _ _ rfl (by decide) rfl⟩

/-! Lemmas for the Windows replace path. -/

theorem renameAtomicLoop_no_dance (env : WinEnv) (src dst : String) :
    ∀ fuel retry, hasDanceEvent (renameAtomicLoop env src dst retry fuel).2 = false := by
  intro fuel
  induction fuel with
  | zero => intro retry; rfl
  | succ n ih =>
      intro retry
      by_cases h : env.moveTransacted retry
      · simp [renameAtomicLoop, h, hasDanceEvent, WinEvent.isDance]
      · rcases hres : renameAtomicLoop env src dst (retry + 1) n with ⟨rv, evs⟩
        have ih' := ih (retry + 1)
        rw [hres] at ih'
        simp [renameAtomicLoop, h, hres, hasDanceEvent, WinEvent.isDance] at ih' ⊢
        exact ih'

theorem renameExLoop_no_dance (env : WinEnv) (src dst : String) :
    ∀ fuel retry, hasDanceEvent (renameExLoop env src dst retry fuel).2 = false := by
  intro fuel
  induction fuel with
  | zero => intro retry; rfl
  | succ n ih =>
      intro retry
      by_cases h : env.moveFileEx retry
      · simp [renameExLoop, h, hasDanceEvent, WinEvent.isDance]
      · rcases hres : renameExLoop env src dst (retry + 1) n with ⟨rv, evs⟩
        have ih' := ih (retry + 1)
        rw [hres] at ih'
        simp [renameExLoop, h, hres, hasDanceEvent, WinEvent.isDance] at ih' ⊢
        exact ih'

theorem rename_atomic_no_dance (env : WinEnv) (src dst : String) :
    hasDanceEvent (_rename_atomic env src dst).2 = false := by
  unfold _rename_atomic
  by_cases ht : env.txSupported
  · by_cases hc : env.createTxOk
    · simp only [ht, hc, not_true, if_false, Bool.not_true]
      simpa using renameAtomicLoop_no_dance env src dst 100 0
    · simp [ht, hc, hasDanceEvent]
  · simp [ht, hasDanceEvent]

theorem rename_no_dance (env : WinEnv) (src dst : String) :
    hasDanceEvent (_rename env src dst).2 = false := by
  unfold _rename
  rcases h1 : _rename_atomic env src dst with ⟨rv, evs⟩
  have h1' := rename_atomic_no_dance env src dst
  rw [h1] at h1'
  cases rv
  · rcases h2 : renameExLoop env src dst 0 100 with ⟨rv2, evs2⟩
    have h2' := renameExLoop_no_dance env src dst 100 0
    rw [h2] at h2'
    simp [hasDanceEvent, List.any_append] at h1' h2' ⊢
    exact ⟨h1', h2'⟩
  · simpa [hasDanceEvent] using h1'

/-- A Windows environment in which transactional NTFS is unavailable and
every MoveFileExW attempt fails, so `_rename` returns False: the input on
which the documented three-step fallback should run. -/
def winEnvMovesAllFail : WinEnv :=
  { txSupported := false, createTxOk := true, moveTransacted := fun _ => false,
    commitTx := true, moveFileEx := fun _ => false,
    renameResult := some (.eexist "dest"), randomHex := "0badc0de" }

/-- C4: the transacted and non-transacted moves are retried under the
bounded policy as claimed, but the further three-step fallback (rename the
destination to a randomized sibling, rename the source into place, delete
the sibling) is unreachable: `_handle_errors` raises WinError whenever
`_rename` reports failure, so no `os.rename`/`os.unlink` event ever occurs
in any run of the Windows `_replace_atomic` — in particular on the
concrete environment where every move attempt fails, the call raises
WinError instead of running the fallback. -/
theorem c4_win_replace_fallback_dead :
    (∀ env src dst, hasDanceEvent (_replace_atomic_win env src dst).2 = false) ∧
    (∀ env src dst, (_replace_atomic_win env src dst).1 =
        (if (_rename env src dst).1 then .ok () else .error .winError)) ∧
    (_replace_atomic_win winEnvMovesAllFail "tmp.atm_tmp" "dest").1 =
      .error .winError ∧
    (_rename winEnvMovesAllFail "tmp.atm_tmp" "dest").1 = false := by
  refine ⟨?_, ?_, ?_, ?_⟩
  · intro env src dst
    unfold _replace_atomic_win
    rcases h : _rename env src dst with ⟨rv, evs⟩
    have h' := rename_no_dance env src dst
    rw [h] at h'
    cases rv <;> simpa [_handle_errors] using h'
  · intro env src dst
    unfold _replace_atomic_win
    rcases h : _rename env src dst with ⟨rv, evs⟩
    cases rv <;> simp [_handle_errors]
  · rfl
  · rfl
